import Mathlib

/-!
Verification of the WatchAD lifecycle controller (`WatchAD.py`).

The repository is a single-file CLI that drives install / check / start /
restart / stop / status verbs over three external dependencies
(Elasticsearch template, MongoDB, message queue) and an external process
supervisor (supervisord / supervisorctl).

We embed the program shallowly: every operation is a pure Lean function
from an `Env` (the responses the external world would give) to a
`RunResult`, a trace of observable events (log lines, read-only probes,
supervisor subprocess invocations, bootstrap steps, help output) together
with an optional `sys.exit` code.  The functions below are line-by-line
translations of the corresponding Python functions.
-/

namespace WatchAD

/-- Logging levels used by the program (`logger.info` / `logger.error`). -/
inductive Level
  | info
  | error
deriving DecidableEq, Repr

/-- The four distinct external supervisor commands the program shells out to:
`supervisord -c .../supervisor.conf` (start),
`supervisorctl -c .../supervisor.conf stop all`,
`supervisorctl -c .../supervisor.conf shutdown`,
`supervisorctl -c .../supervisor.conf status`. -/
inductive SupCmd
  | supervisordStart
  | ctlStopAll
  | ctlShutdown
  | ctlStatus
deriving DecidableEq, Repr

/-- The seven bootstrap steps invoked by `install`, in source order. -/
inductive InstallStep
  | initEsTemplate
  | initLdapSettings
  | getAllDcNames
  | initDefaultSettings
  | initSensitiveGroups
  | setLearningEndTime
  | setCrontabTasks
deriving DecidableEq, Repr

/-- Observable events of one process run. -/
inductive Event
  | log (lvl : Level) (msg : String)
  | probeEs
  | probeMongo
  | probeMq
  | supCall (cmd : SupCmd) (envVars : List (String × String))
  | step (s : InstallStep) (args : List String)
  | printHelp
deriving DecidableEq, Repr

/-- The external world as the program observes it: results of the three
read-only dependency probes, the exit codes the supervisor subprocesses
return, and the externally resolved `project_dir`. -/
structure Env where
  es_ok : Bool
  mongo_ok : Bool
  mq_ok : Bool
  supervisord_rsp : Int
  stop_rsp : Int
  shutdown_rsp : Int
  status_rsp : Int
  project_dir : String
deriving DecidableEq, Repr

/-- Result of running an operation: the event trace and, when the operation
called `sys.exit(c)`, the code `c`.  `exitCode = none` means the operation
returned normally (the process then exits 0). -/
structure RunResult where
  trace : List Event
  exitCode : Option Int
deriving DecidableEq, Repr

/-- The Python process exit status: the `sys.exit` argument when one was
called, otherwise 0. -/
def processExit (r : RunResult) : Int :=
  r.exitCode.getD 0

/-- Constant `ENGINE_PROCESS_NUM = 5`, the module-level worker-count constant. -/
def ENGINE_PROCESS_NUM : Nat := 5

/-- The environment dictionary passed to the supervisor by `start` and
`stop`: engine root directory and worker count. -/
def supEnvFull (e : Env) : List (String × String) :=
  [("WATCHAD_ENGINE_DIR", e.project_dir),
   ("WATCHAD_ENGINE_NUM", toString ENGINE_PROCESS_NUM)]

/-- The environment dictionary passed by `status`: only the root directory. -/
def supEnvDirOnly (e : Env) : List (String × String) :=
  [("WATCHAD_ENGINE_DIR", e.project_dir)]

/-- Function `check()`: probes the ES template, then the MongoDB connection, then the
message-queue connection, returning `false` at the first failure; returns the
boolean result together with the event trace. -/
def check (e : Env) : Bool × List Event :=
  let t := [Event.log .info "Checking the WatchAD environment ...", Event.probeEs]
  if !e.es_ok then (false, t)
  else
    let t := t ++ [Event.probeMongo]
    if !e.mongo_ok then (false, t)
    else
      let t := t ++ [Event.probeMq]
      if !e.mq_ok then (false, t)
      else (true, t ++ [Event.log .info "OK!",
                        Event.log .info "Check the WatchAD environment successfully!"])

/-- Function `check` as dispatched by `main` (its boolean result is discarded). -/
def checkOp (e : Env) : RunResult :=
  { trace := (check e).2, exitCode := none }

/-- Function `start()`: runs `check`; on failure calls `sys.exit(-1)`; otherwise
invokes `supervisord` once and logs the outcome. -/
def startOp (e : Env) : RunResult :=
  let (ok, t) := check e
  if !ok then { trace := t, exitCode := some (-1) }
  else
    let t := t ++ [Event.log .info "Starting the WatchAD detect engine ...",
                   Event.supCall .supervisordStart (supEnvFull e)]
    if e.supervisord_rsp == 0 then
      { trace := t ++ [Event.log .info "Started!"], exitCode := none }
    else
      { trace := t ++ [Event.log .error "Start failed."], exitCode := none }

/-- Function `stop()`: invokes `supervisorctl ... stop all`, logs its outcome, then
unconditionally invokes `supervisorctl ... shutdown` and logs its outcome. -/
def stopOp (e : Env) : RunResult :=
  let t := [Event.log .info "Stopping the WatchAD detect engine ...",
            Event.supCall .ctlStopAll (supEnvFull e)]
  let t := t ++ (if e.stop_rsp == 0 then [Event.log .info "Stopped detection processes."]
                 else [Event.log .error "Stop failed."])
  let t := t ++ [Event.supCall .ctlShutdown (supEnvFull e)]
  let t := t ++ (if e.shutdown_rsp == 0 then [Event.log .info "Shutdown WatchAD."]
                 else [Event.log .error "Shutdown WatchAD failed."])
  { trace := t, exitCode := none }

/-- Sequential composition of two runs: in Python, `sys.exit` raises, so the
second call runs only when the first returned normally. -/
def seqRun (a b : RunResult) : RunResult :=
  match a.exitCode with
  | some _ => a
  | none => { trace := a.trace ++ b.trace, exitCode := b.exitCode }

/-- Function `restart()`: runs `stop()` then `start()`. -/
def restartOp (e : Env) : RunResult :=
  seqRun (stopOp e) (startOp e)

/-- Function `status()`: one `supervisorctl ... status` invocation, passing only the
engine-directory environment variable. -/
def statusOp (e : Env) : RunResult :=
  { trace := [Event.supCall .ctlStatus (supEnvDirOnly e)], exitCode := none }

/-- Function `install(domain, server, user, password)`: logs, then runs the seven
bootstrap steps in source order. -/
def installOp (domain server user password : String) : RunResult :=
  { trace := [Event.log .info "Install the WatchAD ...",
              Event.step .initEsTemplate [],
              Event.step .initLdapSettings [domain, server, user, password],
              Event.step .getAllDcNames [domain],
              Event.step .initDefaultSettings [domain],
              Event.step .initSensitiveGroups [domain],
              Event.step .setLearningEndTime [],
              Event.step .setCrontabTasks []],
    exitCode := none }

/-- The `optparse` destination fields: each verb flag is a `store_true`
boolean (absent ⇒ `False`), each install parameter a `store` string
(absent ⇒ `None`, modelled as `none`). -/
structure Options where
  install : Bool
  domain : Option String
  server : Option String
  username : Option String
  password : Option String
  check : Bool
  start : Bool
  restart : Bool
  stop : Bool
  status : Bool
deriving DecidableEq, Repr

/-- Python truth test `not s` on an optional string: true for `None` and
for the empty string. -/
def falsy : Option String → Bool
  | none => true
  | some s => s == ""

/-- Function `main()`: here `argvLen` is `len(sys.argv)` (script name included).  If fewer
than two entries, log, print help, `sys.exit(1)`; otherwise dispatch on the
first set verb flag in the order install, check, start, restart, stop,
status; with none set, fall through and return normally. -/
def main (argvLen : Nat) (o : Options) (e : Env) : RunResult :=
  if argvLen < 2 then
    { trace := [Event.log .error "WatchAD must run with an action.", Event.printHelp],
      exitCode := some 1 }
  else if o.install then
    if falsy o.domain || falsy o.server || falsy o.username || falsy o.password then
      { trace := [Event.log .error
          "WatchAD install action must provide domain, server, user and password params."],
        exitCode := some 1 }
    else
      installOp (o.domain.getD "") (o.server.getD "") (o.username.getD "") (o.password.getD "")
  else if o.check then checkOp e
  else if o.start then startOp e
  else if o.restart then restartOp e
  else if o.stop then stopOp e
  else if o.status then statusOp e
  else { trace := [], exitCode := none }

/-- Does an event invoke the given supervisor command? -/
def isSupCall (c : SupCmd) : Event → Bool
  | Event.supCall cmd _ => cmd == c
  | _ => false

/-- Is the event any supervisor invocation? -/
def isAnySupCall : Event → Bool
  | Event.supCall _ _ => true
  | _ => false

/-- Is the event a bootstrap step? -/
def isStepEv : Event → Bool
  | Event.step _ _ => true
  | _ => false

/-- Number of invocations of a given supervisor command in a trace. -/
def countSupCalls (c : SupCmd) (t : List Event) : Nat :=
  (t.filter (isSupCall c)).length


/-- Concrete environment: everything healthy, supervisor calls succeed. -/
def env0 : Env :=
  { es_ok := true, mongo_ok := true, mq_ok := true,
    supervisord_rsp := 0, stop_rsp := 0, shutdown_rsp := 0, status_rsp := 0,
    project_dir := "/opt/WatchAD" }

/-- Concrete environment: the message-queue probe fails, the other two pass. -/
def envMqFail : Env :=
  { env0 with mq_ok := false }

/-- Concrete environment: all probes pass but `supervisord` exits 1. -/
def envSupFail : Env :=
  { env0 with supervisord_rsp := 1 }

/-- The trace of `check` contains no supervisor invocations (all its
sub-checks are read-only probes). -/
theorem check_trace_no_supcalls (e : Env) :
    (check e).2.all (fun ev => !isAnySupCall ev) = true := by
  obtain ⟨es, mongo, mq, a, b, c, d, pd⟩ := e
  cases es <;> cases mongo <;> cases mq <;>
    simp [check, isAnySupCall]

/-- Counting a supervisor command over an appended trace. -/
theorem countSupCalls_append (c : SupCmd) (t₁ t₂ : List Event) :
    countSupCalls c (t₁ ++ t₂) = countSupCalls c t₁ + countSupCalls c t₂ := by
  simp [countSupCalls, List.filter_append]

/-- A trace free of supervisor invocations has count 0 for every command. -/
theorem countSupCalls_of_no_supcalls (c : SupCmd) (t : List Event)
    (h : t.all (fun ev => !isAnySupCall ev) = true) :
    countSupCalls c t = 0 := by
  simp only [countSupCalls, List.length_eq_zero, List.filter_eq_nil_iff]
  intro ev hev
  have := (List.all_eq_true.mp h) ev hev
  cases ev <;> simp_all [isAnySupCall, isSupCall]

/-- Claim C1: in every environment where `check` returns false, `start`
never invokes the supervisor start command and terminates the process via
`sys.exit(-1)` (process exit code -1). -/
theorem start_gated_on_check (e : Env) (h : (check e).1 = false) :
    countSupCalls .supervisordStart (startOp e).trace = 0 ∧
    (startOp e).exitCode = some (-1) ∧
    processExit (startOp e) = -1 := by
  obtain ⟨es, mongo, mq, a, b, c, d, pd⟩ := e
  cases es <;> cases mongo <;> cases mq <;>
    simp_all [check, startOp, countSupCalls, isSupCall, processExit]

/-- Witness for C1: concrete environment where only the message-queue probe
fails. -/
theorem start_gated_on_check_witness :
    (check envMqFail).1 = false ∧
    (countSupCalls .supervisordStart (startOp envMqFail).trace = 0 ∧
     (startOp envMqFail).exitCode = some (-1) ∧
     processExit (startOp envMqFail) = -1) :=
  ⟨by decide, start_gated_on_check envMqFail (by decide)⟩

/-- Claim C2: in every environment, the trace of `stop` consists of exactly
one stop-all invocation followed (after some non-supervisor events) by
exactly one shutdown invocation, regardless of either call's exit code. -/
theorem stop_shutdown_after_stopall (e : Env) :
    ∃ pre mid post,
      (stopOp e).trace =
        pre ++ Event.supCall .ctlStopAll (supEnvFull e) ::
          (mid ++ Event.supCall .ctlShutdown (supEnvFull e) :: post) ∧
      ((pre ++ mid ++ post).all (fun ev => !isAnySupCall ev)) = true := by
  refine ⟨[Event.log .info "Stopping the WatchAD detect engine ..."],
    (if e.stop_rsp == 0 then [Event.log .info "Stopped detection processes."]
     else [Event.log .error "Stop failed."]),
    (if e.shutdown_rsp == 0 then [Event.log .info "Shutdown WatchAD."]
     else [Event.log .error "Shutdown WatchAD failed."]), ?_, ?_⟩
  · simp [stopOp]
  · cases h1 : (e.stop_rsp == 0) <;> cases h2 : (e.shutdown_rsp == 0) <;>
      simp [h1, h2, isAnySupCall]

/-- Claim C3: `check` returns true iff all three sub-checks pass, the ES
probe always runs, the MongoDB probe runs iff the ES probe passed, and the
message-queue probe runs iff both earlier probes passed (short-circuit in
the fixed order). -/
theorem check_conjunction_short_circuit (e : Env) :
    (check e).1 = (e.es_ok && e.mongo_ok && e.mq_ok) ∧
    Event.probeEs ∈ (check e).2 ∧
    (Event.probeMongo ∈ (check e).2 ↔ e.es_ok = true) ∧
    (Event.probeMq ∈ (check e).2 ↔ (e.es_ok && e.mongo_ok) = true) := by
  obtain ⟨es, mongo, mq, a, b, c, d, pd⟩ := e
  cases es <;> cases mongo <;> cases mq <;> simp [check]

/-- Claim C4: with the install flag set and any of the four parameters
missing (`None`) or empty, `main` produces only the error log — no bootstrap
step, probe or supervisor call — and the process exits with code 1. -/
theorem install_incomplete_aborts (n : Nat) (o : Options) (e : Env)
    (hn : 2 ≤ n) (hi : o.install = true)
    (hm : (falsy o.domain || falsy o.server || falsy o.username ||
           falsy o.password) = true) :
    (main n o e).trace = [Event.log .error
      "WatchAD install action must provide domain, server, user and password params."] ∧
    processExit (main n o e) = 1 := by
  have hn2 : ¬ n < 2 := by omega
  simp [main, hn2, hi, hm, processExit]

/-- Concrete options: install flag with only the domain supplied. -/
def optsInstallMissing : Options :=
  { install := true, domain := some "corp.example.com", server := none,
    username := none, password := none,
    check := false, start := false, restart := false, stop := false,
    status := false }

/-- Witness for C4: `--install -d corp.example.com` with `-s`, `-u`, `-p`
missing. -/
theorem install_incomplete_aborts_witness :
    2 ≤ 2 ∧ optsInstallMissing.install = true ∧
    ((main 2 optsInstallMissing env0).trace = [Event.log .error
      "WatchAD install action must provide domain, server, user and password params."] ∧
     processExit (main 2 optsInstallMissing env0) = 1) :=
  ⟨by decide, rfl, install_incomplete_aborts 2 optsInstallMissing env0
    (by decide) rfl (by decide)⟩

/-- Claim C5: the bootstrap steps `install` performs are exactly the seven
steps, in source order, with the scheduled-task registration last. -/
theorem install_seven_steps (domain server user password : String) :
    (installOp domain server user password).trace.filter isStepEv =
      [Event.step .initEsTemplate [],
       Event.step .initLdapSettings [domain, server, user, password],
       Event.step .getAllDcNames [domain],
       Event.step .initDefaultSettings [domain],
       Event.step .initSensitiveGroups [domain],
       Event.step .setLearningEndTime [],
       Event.step .setCrontabTasks []] ∧
    (installOp domain server user password).trace.getLast? =
      some (Event.step .setCrontabTasks []) := by
  constructor <;> simp [installOp, isStepEv]

/-- Run composition described by the spec for restart: the stop operation to
completion, then the start operation to completion, with no further
effects. -/
def stopThenStartSpec (e : Env) : RunResult :=
  { trace := (stopOp e).trace ++ (startOp e).trace,
    exitCode := (startOp e).exitCode }

/-- Claim C6: `restart` is observationally equivalent (identical trace and
exit behavior) to `stop` run to completion followed by `start`. -/
theorem restart_equiv_stop_then_start (e : Env) :
    restartOp e = stopThenStartSpec e := rfl

/-- Claim C7: when `check` passes but `supervisord` exits non-zero, `start`
logs the error, invokes the supervisor start command exactly once (no
retry), and returns normally (process exit code 0). -/
theorem start_supervisor_failure (e : Env)
    (hc : (check e).1 = true) (hr : e.supervisord_rsp ≠ 0) :
    Event.log .error "Start failed." ∈ (startOp e).trace ∧
    countSupCalls .supervisordStart (startOp e).trace = 1 ∧
    (startOp e).exitCode = none ∧
    processExit (startOp e) = 0 := by
  have hbeq : (e.supervisord_rsp == 0) = false := by
    simp [hr]
  have hck := check_trace_no_supcalls e
  rcases hpair : check e with ⟨ok, t⟩
  rw [hpair] at hc hck
  simp only at hc hck
  subst hc
  have ht0 : countSupCalls SupCmd.supervisordStart t = 0 :=
    countSupCalls_of_no_supcalls _ _ hck
  have h1 : countSupCalls SupCmd.supervisordStart
      [Event.log Level.info "Starting the WatchAD detect engine ...",
       Event.supCall SupCmd.supervisordStart (supEnvFull e),
       Event.log Level.error "Start failed."] = 1 := by
    simp [countSupCalls, isSupCall]
  simp [startOp, hpair, hbeq, processExit, countSupCalls_append, ht0, h1]

/-- Witness for C7: all probes pass, `supervisord` returns 1. -/
theorem start_supervisor_failure_witness :
    (check envSupFail).1 = true ∧ envSupFail.supervisord_rsp = 1 ∧
    (Event.log .error "Start failed." ∈ (startOp envSupFail).trace ∧
     countSupCalls .supervisordStart (startOp envSupFail).trace = 1 ∧
     (startOp envSupFail).exitCode = none ∧
     processExit (startOp envSupFail) = 0) :=
  ⟨by decide, by decide,
   start_supervisor_failure envSupFail (by decide) (by decide)⟩

/-- Concrete options: only `-d` supplied, no verb flag. -/
def optsDomainOnly : Options :=
  { install := false, domain := some "corp.example.com", server := none,
    username := none, password := none, check := false, start := false,
    restart := false, stop := false, status := false }

/-- Counterexample for C8: invoking with arguments (`-d corp.example.com`,
argv length 3) but no verb flag logs nothing, prints no help text, and the
process exits 0 — contradicting "logs an error, prints the help text, and
exits with a non-zero code" for every verbless invocation. -/
theorem no_verb_with_args_exits_zero :
    (main 3 optsDomainOnly env0).trace = [] ∧
    processExit (main 3 optsDomainOnly env0) = 0 := by
  decide

/-- Claim C8 (amended): only when fewer than two argv entries are present
(no command-line arguments at all) does the process log the error, print
the help text and exit 1; when arguments are present but no verb flag is
set, `main` performs no action and the process exits 0. -/
theorem missing_action_behavior (n : Nat) (o : Options) (e : Env) :
    (n < 2 →
      (main n o e).trace =
        [Event.log .error "WatchAD must run with an action.", Event.printHelp] ∧
      processExit (main n o e) = 1) ∧
    (2 ≤ n →
      (o.install || o.check || o.start || o.restart || o.stop || o.status) = false →
      (main n o e).trace = [] ∧ processExit (main n o e) = 0) := by
  constructor
  · intro h
    simp [main, h, processExit]
  · intro h hv
    have h2 : ¬ n < 2 := by omega
    simp only [Bool.or_eq_false_iff] at hv
    obtain ⟨⟨⟨⟨⟨h1, hc⟩, hs⟩, hr⟩, hst⟩, hsu⟩ := hv
    simp [main, h2, h1, hc, hs, hr, hst, hsu, processExit]

/-- Witness for C8 (amended): argv of length 1 triggers the help/exit-1
path; argv of length 3 with only `-d` does nothing and exits 0. -/
theorem missing_action_behavior_witness :
    ((main 1 optsDomainOnly env0).trace =
       [Event.log .error "WatchAD must run with an action.", Event.printHelp] ∧
     processExit (main 1 optsDomainOnly env0) = 1) ∧
    ((main 3 optsDomainOnly env0).trace = [] ∧
     processExit (main 3 optsDomainOnly env0) = 0) :=
  ⟨(missing_action_behavior 1 optsDomainOnly env0).1 (by decide),
   (missing_action_behavior 3 optsDomainOnly env0).2 (by decide) (by decide)⟩

/-- Counterexample for C9: the status invocation passes a single
environment variable (the engine root directory only), not two. -/
theorem status_single_env_var :
    (statusOp env0).trace =
      [Event.supCall .ctlStatus [("WATCHAD_ENGINE_DIR", "/opt/WatchAD")]] ∧
    ([("WATCHAD_ENGINE_DIR", "/opt/WatchAD")] : List (String × String)).length ≠ 2 := by
  decide

/-- Predicate on events: a supervisor invocation carries exactly the
environment dictionary the program passes for that command — root directory
and worker count for start / stop-all / shutdown, root directory only for
status; non-supervisor events satisfy it trivially. -/
def supArgsOk (e : Env) : Event → Bool
  | Event.supCall .ctlStatus vs => vs == supEnvDirOnly e
  | Event.supCall _ vs => vs == supEnvFull e
  | _ => true

/-- A trace without supervisor invocations trivially satisfies `supArgsOk`. -/
theorem all_supArgsOk_of_no_supcalls (e : Env) (t : List Event)
    (h : t.all (fun ev => !isAnySupCall ev) = true) :
    t.all (supArgsOk e) = true := by
  rw [List.all_eq_true] at h ⊢
  intro ev hev
  have := h ev hev
  cases ev <;> simp_all [isAnySupCall, supArgsOk]

/-- Claim C9 (amended): every supervisor invocation made by `start`, `stop`
and `restart` passes exactly the two variables — engine root directory and
the process-wide constant worker count — while `status` passes only the
engine root directory. -/
theorem supervisor_env_vars (e : Env) :
    (startOp e).trace.all (supArgsOk e) = true ∧
    (stopOp e).trace.all (supArgsOk e) = true ∧
    (restartOp e).trace.all (supArgsOk e) = true ∧
    (statusOp e).trace.all (supArgsOk e) = true ∧
    supEnvFull e = [("WATCHAD_ENGINE_DIR", e.project_dir),
                    ("WATCHAD_ENGINE_NUM", toString ENGINE_PROCESS_NUM)] ∧
    supEnvDirOnly e = [("WATCHAD_ENGINE_DIR", e.project_dir)] := by
  have hck := all_supArgsOk_of_no_supcalls e _ (check_trace_no_supcalls e)
  have hstart : (startOp e).trace.all (supArgsOk e) = true := by
    rcases hpair : check e with ⟨ok, t⟩
    have ht : t.all (supArgsOk e) = true := by rw [hpair] at hck; exact hck
    cases ok
    · simp [startOp, hpair, ht]
    · cases h : (e.supervisord_rsp == 0) <;>
        simp [startOp, hpair, h, ht, List.all_append, supArgsOk]
  have hstop : (stopOp e).trace.all (supArgsOk e) = true := by
    cases h1 : (e.stop_rsp == 0) <;> cases h2 : (e.shutdown_rsp == 0) <;>
      simp [stopOp, h1, h2, List.all_append, supArgsOk]
  refine ⟨hstart, hstop, ?_, ?_, rfl, rfl⟩
  · show ((stopOp e).trace ++ (startOp e).trace).all (supArgsOk e) = true
    simp [List.all_append, hstart, hstop]
  · simp [statusOp, supArgsOk]

/-- Claim C10: with at least one argument, `main` dispatches exactly one
verb, chosen by the fixed precedence install, check, start, restart, stop,
status — the first set flag of the chain wins and the remaining flags are
silently ignored. -/
theorem verb_precedence (n : Nat) (o : Options) (e : Env) (hn : 2 ≤ n) :
    (o.install = true →
      (falsy o.domain || falsy o.server || falsy o.username ||
       falsy o.password) = false →
      main n o e = installOp (o.domain.getD "") (o.server.getD "")
        (o.username.getD "") (o.password.getD "")) ∧
    (o.install = false → o.check = true → main n o e = checkOp e) ∧
    (o.install = false → o.check = false → o.start = true →
      main n o e = startOp e) ∧
    (o.install = false → o.check = false → o.start = false →
      o.restart = true → main n o e = restartOp e) ∧
    (o.install = false → o.check = false → o.start = false →
      o.restart = false → o.stop = true → main n o e = stopOp e) ∧
    (o.install = false → o.check = false → o.start = false →
      o.restart = false → o.stop = false → o.status = true →
      main n o e = statusOp e) := by
  have h2 : ¬ n < 2 := by omega
  refine ⟨?_, ?_, ?_, ?_, ?_, ?_⟩ <;> intros <;> simp_all [main]

/-- Concrete options: the check, start, stop and status flags all set. -/
def optsMultiVerb : Options :=
  { install := false, domain := none, server := none, username := none,
    password := none, check := true, start := true, restart := false,
    stop := true, status := true }

/-- Witness for C10: with check, start, stop and status all supplied, only
the check branch runs. -/
theorem verb_precedence_witness :
    main 2 optsMultiVerb env0 = checkOp env0 :=
  (verb_precedence 2 optsMultiVerb env0 (by decide)).2.1 rfl rfl

end WatchAD
